import Mathlib

/-!
Shallow embedding of the order/payment transactional core of the
Chiya Mantralaya management system.

The authoritative code is:
* `supabase/migrations/20251122160304_create_rpc_functions.sql` — the RPC
  functions `confirm_payment`, `confirm_split_payment`, `edit_order`,
  `add_expense`, `get_daily_summary`;
* `supabase/migrations/20251122160219_create_rls_policies.sql` — the
  row-level-security policies gating direct table updates;
* `src/components/Navigation.tsx` (`OrderModal`) — the client order
  create/edit flow (`calculateTotal`, `handleSubmit`, `availableTables`);
* `src/pages/Orders.tsx` (`handleStatusUpdate`) — the client status-advance
  flow, a direct `UPDATE orders SET status = ...` gated only by RLS.

Currency amounts (`numeric` columns) are modelled as `ℚ`; row identities
(`uuid`) as `ℕ`; timestamps and dates as `ℕ`.  Order statuses are the four
values allowed by the schema CHECK constraint and the TypeScript union type,
so they are an inductive type; the `p_method` argument of `confirm_payment`
is unconstrained SQL `text`, so it stays a `String`.  A plpgsql
`RAISE EXCEPTION` aborts the whole transaction, so each operation returns
`Except RpcError DB`: on error no write survives.
-/

namespace Chiya

/-- Order status; the schema CHECK constraint allows exactly these values. -/
inductive OStatus where
  | taken
  | prepared
  | delivered
  | paid
deriving Repr, DecidableEq

/-- A line item of the `orders.items` jsonb array: item_id, name snapshot,
qty, price snapshot, exactly as built by `OrderModal.addMenuItem`. -/
structure OrderItem where
  item_id : Nat
  name : String
  qty : Nat
  price : Rat
deriving Repr, DecidableEq

/-- A row of `profiles`: user id, role ("admin" or "employee"), verified flag. -/
structure Profile where
  id : Nat
  role : String
  verified : Bool
deriving Repr, DecidableEq

/-- A row of `orders`. `payment_method` is nullable text constrained to
cash/online/split. -/
structure OrderRow where
  id : Nat
  table_id : Option Nat
  employee_id : Nat
  items : List OrderItem
  status : OStatus
  total_price : Rat
  payment_method : Option String
  created_at : Nat
  updated_at : Nat
deriving Repr, DecidableEq

/-- A row of `payments`. -/
structure PaymentRow where
  order_id : Nat
  method : String
  amount : Rat
  recorded_by : Nat
deriving Repr, DecidableEq

/-- A row of `cafe_tables`; status is "empty" or "occupied". -/
structure TableRow where
  id : Nat
  table_number : Nat
  status : String
deriving Repr, DecidableEq

/-- A row of `daily_revenue`, keyed by calendar date. -/
structure RevenueRow where
  rdate : Nat
  cash_total : Rat
  online_total : Rat
deriving Repr, DecidableEq

/-- A row of `audit_logs` (the fields the claims can observe). -/
structure AuditRow where
  action : String
  record_id : Nat
  performed_by : Nat
deriving Repr, DecidableEq

/-- The ledger store: all tables touched by the transactional core. -/
structure DB where
  profiles : List Profile
  orders : List OrderRow
  payments : List PaymentRow
  cafe_tables : List TableRow
  daily_revenue : List RevenueRow
  audit_logs : List AuditRow
deriving Repr, DecidableEq

/-- Every distinct `RAISE EXCEPTION` / client-side rejection in the embedded
operations. -/
inductive RpcError where
  | notAdmin
  | invalidMethod
  | notFound
  | alreadyPaid
  | notYetDelivered
  | profileNotFound
  | orderFinalized
  | notOwner
  | tooLateToEdit
  | invalidAmount
  | zeroPayment
  | amountMismatch
  | rlsViolation
  | noTableSelected
  | noItems
deriving Repr, DecidableEq

instance {ε α : Type} [DecidableEq ε] [DecidableEq α] :
    DecidableEq (Except ε α) := fun a b =>
  match a, b with
  | .error e, .error f =>
    if h : e = f then .isTrue (congrArg Except.error h)
    else .isFalse (fun hh => h (Except.error.inj hh))
  | .ok x, .ok y =>
    if h : x = y then .isTrue (congrArg Except.ok h)
    else .isFalse (fun hh => h (Except.ok.inj hh))
  | .error _, .ok _ => .isFalse (fun hh => Except.noConfusion hh)
  | .ok _, .error _ => .isFalse (fun hh => Except.noConfusion hh)

/-- SQL `ABS` on numeric values. -/
def ratAbs (q : Rat) : Rat := if q < 0 then -q else q

/-- RLS helper `is_admin()`: the caller has a profile with role admin. -/
def is_admin (db : DB) (uid : Nat) : Bool :=
  db.profiles.any (fun p => p.id == uid && p.role == "admin")

/-- RLS helper `is_verified()`: the caller has a profile with verified = true. -/
def is_verified (db : DB) (uid : Nat) : Bool :=
  db.profiles.any (fun p => p.id == uid && p.verified)

/-- `SELECT * FROM orders WHERE id = p_order_id`. -/
def findOrder (db : DB) (oid : Nat) : Option OrderRow :=
  db.orders.find? (fun o => o.id == oid)

/-- `UPDATE orders SET ... WHERE id = oid`: rewrite every row matching the id. -/
def setOrder (db : DB) (oid : Nat) (f : OrderRow → OrderRow) : DB :=
  { db with orders := db.orders.map (fun o => if o.id == oid then f o else o) }

/-- `UPDATE cafe_tables SET status = 'empty' WHERE id = order_table_id`,
guarded by `IF order_table_id IS NOT NULL`. -/
def freeTable (tables : List TableRow) (tid : Option Nat) : List TableRow :=
  match tid with
  | none => tables
  | some t =>
      tables.map (fun r => if r.id == t then { r with status := "empty" } else r)

/-- `INSERT INTO daily_revenue ... ON CONFLICT (date) DO UPDATE SET ...`:
add the two deltas to the row of the given date, creating it if absent. -/
def upsertRevenue (rows : List RevenueRow) (d : Nat) (dCash dOnline : Rat) :
    List RevenueRow :=
  if rows.any (fun r => r.rdate == d) then
    rows.map (fun r =>
      if r.rdate == d then
        { r with cash_total := r.cash_total + dCash,
                 online_total := r.online_total + dOnline }
      else r)
  else
    rows ++ [⟨d, dCash, dOnline⟩]

/-- The RPC `confirm_payment(p_order_id, p_method)` run by caller `admin_id`
on date `today` at time `now`.  Checks appear in the source order: admin
gate, method validation, order load (`NotFound`), `AlreadyPaid`,
`NotYetDelivered`; then the payment insert, the order update, the revenue
upsert, the table release and the audit insert, all in one transaction. -/
def confirm_payment (db : DB) (admin_id today now : Nat)
    (p_order_id : Nat) (p_method : String) : Except RpcError DB :=
  if !is_admin db admin_id then .error .notAdmin
  else if !(p_method == "cash" || p_method == "online") then .error .invalidMethod
  else
    match findOrder db p_order_id with
    | none => .error .notFound
    | some o =>
      if o.status == .paid then .error .alreadyPaid
      else if o.status != .delivered then .error .notYetDelivered
      else
        let order_total := o.total_price
        let db1 := { db with
          payments := db.payments ++ [⟨p_order_id, p_method, order_total, admin_id⟩] }
        let db2 := setOrder db1 p_order_id (fun r =>
          { r with status := .paid, payment_method := some p_method, updated_at := now })
        let db3 := { db2 with
          daily_revenue := upsertRevenue db2.daily_revenue today
            (if p_method == "cash" then order_total else 0)
            (if p_method == "online" then order_total else 0) }
        let db4 := { db3 with cafe_tables := freeTable db3.cafe_tables o.table_id }
        .ok { db4 with
          audit_logs := db4.audit_logs ++ [⟨"confirm_payment", p_order_id, admin_id⟩] }

/-- The RPC `confirm_split_payment(p_order_id, p_cash_amount, p_online_amount)`.
Checks in source order: admin gate, negative amounts, zero total, order load,
`AlreadyPaid`, `NotYetDelivered`, the 0.01 tolerance check; then conditional
payment inserts (each method only when its amount is strictly positive), the
order update to status paid / payment_method split, the revenue upsert, the
table release and the audit insert. -/
def confirm_split_payment (db : DB) (admin_id today now : Nat)
    (p_order_id : Nat) (p_cash_amount p_online_amount : Rat) :
    Except RpcError DB :=
  if !is_admin db admin_id then .error .notAdmin
  else if p_cash_amount < 0 || p_online_amount < 0 then .error .invalidAmount
  else
    let total_amount := p_cash_amount + p_online_amount
    if total_amount ≤ 0 then .error .zeroPayment
    else
      match findOrder db p_order_id with
      | none => .error .notFound
      | some o =>
        if o.status == .paid then .error .alreadyPaid
        else if o.status != .delivered then .error .notYetDelivered
        else if (1 : Rat)/100 < ratAbs (total_amount - o.total_price) then
          .error .amountMismatch
        else
          let cashRecs : List PaymentRow :=
            if 0 < p_cash_amount then [⟨p_order_id, "cash", p_cash_amount, admin_id⟩] else []
          let onlineRecs : List PaymentRow :=
            if 0 < p_online_amount then [⟨p_order_id, "online", p_online_amount, admin_id⟩] else []
          let db1 := { db with payments := db.payments ++ cashRecs ++ onlineRecs }
          let db2 := setOrder db1 p_order_id (fun r =>
            { r with status := .paid, payment_method := some "split", updated_at := now })
          let db3 := { db2 with
            daily_revenue := upsertRevenue db2.daily_revenue today p_cash_amount p_online_amount }
          let db4 := { db3 with cafe_tables := freeTable db3.cafe_tables o.table_id }
          .ok { db4 with
            audit_logs := db4.audit_logs ++ [⟨"confirm_split_payment", p_order_id, admin_id⟩] }

/-- The SET clause of `edit_order`'s UPDATE: replace items and total, apply
`COALESCE(p_status, status)` and `COALESCE(p_table_id, table_id)`, refresh
`updated_at`. -/
def editUpdate (p_items : List OrderItem) (p_total_price : Rat)
    (p_status : Option OStatus) (p_table_id : Option Nat) (now : Nat)
    (r : OrderRow) : OrderRow :=
  { r with
    items := p_items,
    total_price := p_total_price,
    status := p_status.getD r.status,
    table_id := match p_table_id with | none => r.table_id | some t => some t,
    updated_at := now }

/-- The RPC `edit_order(p_order_id, p_items, p_total_price, p_status, p_table_id)`
run by caller `uid` at time `now`.  Checks in source order: profile lookup,
order load (`NotFound`), paid orders (`OrderFinalized`), then for employee
callers ownership (`NotOwner`) and delivered status (`TooLateToEdit`), then
the non-negativity of the supplied total (`InvalidAmount`).  The update
stores the supplied items and total as given, COALESCEs the optional status
and table overrides with the current values, refreshes `updated_at`, and
appends an audit record. -/
def edit_order (db : DB) (uid now : Nat) (p_order_id : Nat)
    (p_items : List OrderItem) (p_total_price : Rat)
    (p_status : Option OStatus) (p_table_id : Option Nat) :
    Except RpcError DB :=
  match db.profiles.find? (fun p => p.id == uid) with
  | none => .error .profileNotFound
  | some prof =>
    match findOrder db p_order_id with
    | none => .error .notFound
    | some o =>
      if o.status == .paid then .error .orderFinalized
      else if prof.role == "employee" && o.employee_id != uid then .error .notOwner
      else if prof.role == "employee" && o.status == .delivered then .error .tooLateToEdit
      else if p_total_price < 0 then .error .invalidAmount
      else
        let db1 := setOrder db p_order_id
          (editUpdate p_items p_total_price p_status p_table_id now)
        .ok { db1 with audit_logs := db1.audit_logs ++ [⟨"edit_order", p_order_id, uid⟩] }

/-- USING clause of the RLS policy "Employees can update own unpaid orders":
the caller owns the row, the row's current status is taken or prepared, and
the caller is verified. -/
def empUpdateUsing (db : DB) (uid : Nat) (o : OrderRow) : Bool :=
  uid == o.employee_id && (o.status == .taken || o.status == .prepared)
    && is_verified db uid

/-- WITH CHECK clause of the same policy, applied to the would-be new row:
the caller owns it, its status is taken, prepared or delivered, and the
caller is verified. -/
def empUpdateCheck (db : DB) (uid : Nat) (o : OrderRow) : Bool :=
  uid == o.employee_id
    && (o.status == .taken || o.status == .prepared || o.status == .delivered)
    && is_verified db uid

/-- The client `Orders.handleStatusUpdate`: a direct
`UPDATE orders SET status = newStatus, updated_at = now WHERE id = orderId`,
gated only by the RLS policies on `orders` (the permissive policies
"Admins can update any order" and "Employees can update own unpaid orders"
are OR-ed).  A row whose USING clauses all fail is invisible to the update,
so the statement succeeds touching zero rows; a row that passes USING but
whose new version fails every WITH CHECK raises an error. -/
def handleStatusUpdate (db : DB) (uid now : Nat) (orderId : Nat)
    (newStatus : OStatus) : Except RpcError DB :=
  match findOrder db orderId with
  | none => .ok db
  | some o =>
    if is_admin db uid || empUpdateUsing db uid o then
      let o2 := { o with status := newStatus, updated_at := now }
      if is_admin db uid || empUpdateCheck db uid o2 then
        .ok (setOrder db orderId (fun _ => o2))
      else .error .rlsViolation
    else .ok db

/-- `OrderModal.calculateTotal`: `orderItems.reduce((sum, item) =>
sum + item.qty * item.price, 0)`. -/
def calculateTotal (orderItems : List OrderItem) : Rat :=
  orderItems.foldl (fun sum item => sum + (item.qty : Rat) * item.price) 0

/-- `OrderModal`'s `availableTables`: `tables.filter(t =>
t.status === 'empty' || t.id === order?.table_id)`. -/
def availableTables (tables : List TableRow) (order : Option OrderRow) :
    List TableRow :=
  tables.filter (fun t =>
    t.status == "empty" ||
      (match order with
       | none => false
       | some o => o.table_id == some t.id))

/-- `OrderModal.handleSubmit`, create branch (`order == null`): reject a
missing table selection, reject an empty item list, then insert the order
(status taken, total from `calculateTotal`, employee_id the caller) and flip
the selected table to occupied.  The insert and the table update are gated
by the RLS policies "Verified users can create orders" and "Verified users
can update table status"; no occupancy check happens anywhere on this path. -/
def orderModalCreate (db : DB) (uid : Nat) (selectedTable : Option Nat)
    (orderItems : List OrderItem) (newId now : Nat) : Except RpcError DB :=
  match selectedTable with
  | none => .error .noTableSelected
  | some t =>
    if orderItems.isEmpty then .error .noItems
    else if !(is_verified db uid || is_admin db uid) then .error .rlsViolation
    else
      let totalPrice := calculateTotal orderItems
      let newRow : OrderRow :=
        ⟨newId, some t, uid, orderItems, .taken, totalPrice, none, now, now⟩
      let db1 := { db with orders := db.orders ++ [newRow] }
      .ok { db1 with
        cafe_tables := db1.cafe_tables.map (fun r =>
          if r.id == t then { r with status := "occupied" } else r) }

/-- `OrderModal.handleSubmit`, edit branch (`order != null`): reject a
missing table selection or an empty item list, then call the `edit_order`
RPC with the current items, `calculateTotal()` as the total, no status
override, and the selected table as the table override. -/
def orderModalEdit (db : DB) (uid now : Nat) (orderId : Nat)
    (selectedTable : Option Nat) (orderItems : List OrderItem) :
    Except RpcError DB :=
  match selectedTable with
  | none => .error .noTableSelected
  | some t =>
    if orderItems.isEmpty then .error .noItems
    else edit_order db uid now orderId orderItems (calculateTotal orderItems)
      none (some t)

/-! ### Helper lemmas -/

theorem setOrder_mem_eq (db : DB) (oid : Nat) (f : OrderRow → OrderRow)
    (r : OrderRow) (hr : r ∈ (setOrder db oid f).orders) (hid : r.id = oid) :
    ∃ a ∈ db.orders, a.id = oid ∧ r = f a := by
  simp only [setOrder, List.mem_map] at hr
  obtain ⟨a, ha, hra⟩ := hr
  by_cases h : a.id = oid
  · refine ⟨a, ha, h, ?_⟩
    rw [if_pos (beq_iff_eq.mpr h)] at hra
    exact hra.symm
  · rw [if_neg (by simp [h])] at hra
    subst hra
    exact absurd hid h

theorem setOrder_mem_ne (db : DB) (oid : Nat) (f : OrderRow → OrderRow)
    (hf : ∀ a, (f a).id = a.id)
    (r : OrderRow) (hr : r ∈ (setOrder db oid f).orders) (hid : r.id ≠ oid) :
    r ∈ db.orders := by
  simp only [setOrder, List.mem_map] at hr
  obtain ⟨a, ha, hra⟩ := hr
  by_cases h : a.id = oid
  · rw [if_pos (beq_iff_eq.mpr h)] at hra
    exact absurd (by rw [← hra, hf a, h]) hid
  · rw [if_neg (by simp [h])] at hra
    exact hra ▸ ha

theorem freeTable_mem_empty (tables : List TableRow) (t : Nat) (r : TableRow)
    (hr : r ∈ freeTable tables (some t)) (hid : r.id = t) :
    r.status = "empty" := by
  simp only [freeTable, List.mem_map] at hr
  obtain ⟨a, ha, hra⟩ := hr
  by_cases h : a.id = t
  · rw [if_pos (beq_iff_eq.mpr h)] at hra
    rw [← hra]
  · rw [if_neg (by simp [h])] at hra
    subst hra
    exact absurd hid h

theorem calculateTotal_go (l : List OrderItem) (acc : Rat) :
    l.foldl (fun sum item => sum + (item.qty : Rat) * item.price) acc
      = acc + (l.map fun i => (i.qty : Rat) * i.price).sum := by
  induction l generalizing acc with
  | nil => simp
  | cons a l ih => simp [ih, add_assoc]

theorem calculateTotal_eq_sum (l : List OrderItem) :
    calculateTotal l = (l.map fun i => (i.qty : Rat) * i.price).sum := by
  simp [calculateTotal, calculateTotal_go]

theorem ratAbs_eq_abs (q : Rat) : ratAbs q = |q| := by
  unfold ratAbs
  by_cases h : q < 0
  · rw [if_pos h, abs_of_neg h]
  · rw [if_neg h, abs_of_nonneg (not_lt.mp h)]

/-- A well-populated sample database used by the concrete witnesses: an
admin (id 1), a verified employee (id 2), one delivered order (id 10,
total 20) created by the employee at the occupied table 5. -/
def sampleDB : DB :=
  { profiles := [⟨1, "admin", true⟩, ⟨2, "employee", true⟩]
    orders := [⟨10, some 5, 2, [⟨1, "Tea", 2, 10⟩], .delivered, 20, none, 0, 0⟩]
    payments := []
    cafe_tables := [⟨5, 1, "occupied"⟩]
    daily_revenue := []
    audit_logs := [] }

/-- Like `sampleDB` but the order is already paid. -/
def sampleDBPaid : DB :=
  { sampleDB with
    orders := [⟨10, some 5, 2, [⟨1, "Tea", 2, 10⟩], .paid, 20, some "cash", 0, 0⟩] }

/-- C1: for an order currently in status delivered, a successful
`confirm_payment(orderId, method)` with a valid method (cash or online) by
an admin caller commits, sets the order's status to paid and its
payment_method to the given method, appends exactly one new payment record
whose amount equals the order's total_price, and, if the order references a
table, sets that table's status to empty. -/
theorem confirmPayment_delivered_settles
    (db : DB) (aid today now oid : Nat) (m : String)
    (hadm : is_admin db aid = true)
    (hm : m = "cash" ∨ m = "online")
    (o : OrderRow) (hfind : findOrder db oid = some o)
    (hst : o.status = .delivered) :
    ∃ db', confirm_payment db aid today now oid m = .ok db' ∧
      db'.payments = db.payments ++ [⟨oid, m, o.total_price, aid⟩] ∧
      (∀ r ∈ db'.orders, r.id = oid →
        r.status = .paid ∧ r.payment_method = some m) ∧
      (∀ t, o.table_id = some t →
        ∀ r ∈ db'.cafe_tables, r.id = t → r.status = "empty") := by
  have heq : confirm_payment db aid today now oid m =
      .ok { profiles := db.profiles
            orders := (setOrder db oid (fun r =>
              { r with status := .paid, payment_method := some m,
                       updated_at := now })).orders
            payments := db.payments ++ [⟨oid, m, o.total_price, aid⟩]
            cafe_tables := freeTable db.cafe_tables o.table_id
            daily_revenue := upsertRevenue db.daily_revenue today
              (if m == "cash" then o.total_price else 0)
              (if m == "online" then o.total_price else 0)
            audit_logs := db.audit_logs ++ [⟨"confirm_payment", oid, aid⟩] } := by
    rcases hm with rfl | rfl <;>
      simp [confirm_payment, setOrder, hadm, hfind, hst]
  refine ⟨_, heq, rfl, ?_, ?_⟩
  · intro r hr hid
    obtain ⟨a, _, _, hra⟩ := setOrder_mem_eq db oid _ r hr hid
    subst hra
    exact ⟨rfl, rfl⟩
  · intro t ht r hr hid
    rw [ht] at hr
    exact freeTable_mem_empty db.cafe_tables t r hr hid

/-- Witness for C1 at a concrete database. -/
theorem confirmPayment_delivered_settles_witness :
    ∃ db', confirm_payment sampleDB 1 3 4 10 "cash" = .ok db' ∧
      db'.payments = sampleDB.payments ++ [⟨10, "cash", 20, 1⟩] ∧
      (∀ r ∈ db'.orders, r.id = 10 →
        r.status = .paid ∧ r.payment_method = some "cash") ∧
      (∀ t, (some 5 : Option Nat) = some t →
        ∀ r ∈ db'.cafe_tables, r.id = t → r.status = "empty") :=
  confirmPayment_delivered_settles sampleDB 1 3 4 10 "cash" (by decide)
    (Or.inl rfl) ⟨10, some 5, 2, [⟨1, "Tea", 2, 10⟩], .delivered, 20, none, 0, 0⟩
    (by decide) rfl


/-- C2: an order already in status paid cannot be settled again: a second
`confirm_payment` call with a valid method and a second
`confirm_split_payment` call with well-formed amounts both fail with
AlreadyPaid, and an error aborts the whole transaction, so no payment
record is created and no state changes. -/
theorem settle_twice_alreadyPaid
    (db : DB) (aid today now oid : Nat) (m : String) (c onl : Rat)
    (hadm : is_admin db aid = true)
    (o : OrderRow) (hfind : findOrder db oid = some o) (hst : o.status = .paid)
    (hm : m = "cash" ∨ m = "online")
    (hc : 0 ≤ c) (hon : 0 ≤ onl) (hpos : 0 < c + onl) :
    confirm_payment db aid today now oid m = .error .alreadyPaid ∧
    confirm_split_payment db aid today now oid c onl = .error .alreadyPaid := by
  constructor
  · rcases hm with rfl | rfl <;> simp [confirm_payment, hadm, hfind, hst]
  · simp [confirm_split_payment, hadm, hfind, hst,
      not_lt.mpr hc, not_lt.mpr hon, not_le.mpr hpos]

/-- Witness for C2 at a concrete database holding a paid order. -/
theorem settle_twice_alreadyPaid_witness :
    confirm_payment sampleDBPaid 1 3 4 10 "cash" = .error .alreadyPaid ∧
    confirm_split_payment sampleDBPaid 1 3 4 10 12 8 = .error .alreadyPaid :=
  settle_twice_alreadyPaid sampleDBPaid 1 3 4 10 "cash" 12 8 (by decide)
    ⟨10, some 5, 2, [⟨1, "Tea", 2, 10⟩], .paid, 20, some "cash", 0, 0⟩
    (by decide) rfl (Or.inl rfl) (by norm_num) (by norm_num) (by norm_num)


/-- Concrete database for the C3 counterexample: an admin (id 1) and a paid
order (id 10). -/
def regressDB : DB :=
  { profiles := [⟨1, "admin", true⟩]
    orders := [⟨10, none, 2, [], .paid, 5, some "cash", 0, 0⟩]
    payments := []
    cafe_tables := []
    daily_revenue := []
    audit_logs := [] }

/-- C3 counterexample: `handleStatusUpdate` performs no forward-only
validation at all.  An admin calling it on a paid order with target status
taken succeeds and the order's status regresses from paid to taken,
refuting both the invalid-transition rejection and the never-leaves-paid
property. -/
theorem handleStatusUpdate_regression_cex :
    (findOrder regressDB 10).map OrderRow.status = some .paid ∧
    handleStatusUpdate regressDB 1 7 10 .taken =
      .ok { regressDB with orders := [⟨10, none, 2, [], .taken, 5, some "cash", 0, 7⟩] } := by
  decide

/-- C3 amended: `handleStatusUpdate` applies whatever target status the
caller supplies, with no forward-progression check: an admin caller
rewrites the order to any requested status, even away from paid.  Only for
a non-admin caller does the RLS employee policy (whose USING clause
requires current status taken or prepared) keep a paid order untouched:
the update matches zero rows and the database is returned unchanged. -/
theorem handleStatusUpdate_amended
    (db : DB) (uid now oid : Nat) (s : OStatus) (o : OrderRow)
    (hfind : findOrder db oid = some o) :
    (is_admin db uid = false → o.status = .paid →
      handleStatusUpdate db uid now oid s = .ok db) ∧
    (is_admin db uid = true →
      handleStatusUpdate db uid now oid s =
        .ok (setOrder db oid (fun _ => { o with status := s, updated_at := now }))) := by
  constructor
  · intro hna hst
    simp [handleStatusUpdate, hfind, hna, empUpdateUsing, hst]
  · intro ha
    simp [handleStatusUpdate, hfind, ha]

/-- Witness for the amended C3 at a concrete database: a verified employee
(id 2, not an admin) calls `handleStatusUpdate` on a paid order and the
database is returned unchanged. -/
theorem handleStatusUpdate_amended_witness :
    handleStatusUpdate sampleDBPaid 2 7 10 .taken = .ok sampleDBPaid :=
  (handleStatusUpdate_amended sampleDBPaid 2 7 10 .taken
    ⟨10, some 5, 2, [⟨1, "Tea", 2, 10⟩], .paid, 20, some "cash", 0, 0⟩
    (by decide)).1 (by decide) rfl


/-- Concrete database for the C4 counterexample: an admin (id 1) and a
taken order (id 10) with no items and total 0. -/
def mismatchDB : DB :=
  { profiles := [⟨1, "admin", true⟩]
    orders := [⟨10, none, 2, [], .taken, 0, none, 0, 0⟩]
    payments := []
    cafe_tables := []
    daily_revenue := []
    audit_logs := [] }

/-- C4 counterexample: `edit_order` stores the caller-supplied total after
checking only non-negativity and never re-derives it from the items, so an
edit supplying items worth 10 with total 999 commits successfully and
leaves `total_price` different from the item sum. -/
theorem editOrder_total_not_rederived_cex :
    edit_order mismatchDB 1 5 10 [⟨1, "Tea", 1, 10⟩] 999 none none =
      .ok { mismatchDB with
        orders := [⟨10, none, 2, [⟨1, "Tea", 1, 10⟩], .taken, 999, none, 0, 5⟩]
        audit_logs := [⟨"edit_order", 10, 1⟩] } ∧
    calculateTotal [⟨1, "Tea", 1, 10⟩] ≠ 999 := by
  constructor
  · decide
  · norm_num [calculateTotal, List.foldl]

/-- The database produced by the concrete OrderModal create used in the C4
witness: employee 2 creates order 100 (two Tea at 10) at table 5. -/
def createdDB : DB :=
  { sampleDB with
    orders := sampleDB.orders ++ [⟨100, some 5, 2, [⟨1, "Tea", 2, 10⟩], .taken, 20, none, 6, 6⟩] }

/-- C4 amended: the server stores the caller-supplied total after checking
only that it is non-negative; the invariant total_price = Σ qty × price
holds for every order written through the OrderModal client flow, whose
create and edit branches always send `calculateTotal(items)` together with
the same items. -/
theorem orderModal_total_invariant
    (db db' : DB) (uid t newId now oid : Nat) (items : List OrderItem) :
    (orderModalCreate db uid (some t) items newId now = .ok db' →
      ∃ row, db'.orders = db.orders ++ [row] ∧ row.items = items ∧
        row.total_price = (row.items.map fun i => (i.qty : Rat) * i.price).sum) ∧
    (orderModalEdit db uid now oid (some t) items = .ok db' →
      ∀ r ∈ db'.orders, r.id = oid →
        r.total_price = (r.items.map fun i => (i.qty : Rat) * i.price).sum) := by
  constructor
  · intro h
    unfold orderModalCreate at h
    split at h
    · cases h
    split at h
    · cases h
    split at h
    · cases h
    injection h with h
    subst h
    exact ⟨_, rfl, rfl, calculateTotal_eq_sum items⟩
  · intro h r hr hid
    unfold orderModalEdit edit_order at h
    split at h
    · cases h
    split at h
    · cases h
    split at h
    · cases h
    split at h
    · cases h
    split at h
    · cases h
    split at h
    · cases h
    split at h
    · cases h
    split at h
    · cases h
    injection h with h
    subst h
    obtain ⟨a, _, _, hra⟩ := setOrder_mem_eq db oid _ r hr hid
    subst hra
    exact calculateTotal_eq_sum items

/-- Witness for the amended C4: a concrete OrderModal create commits an
order whose stored total equals the sum of its line items. -/
theorem orderModal_total_invariant_witness :
    ∃ row, (createdDB).orders = sampleDB.orders ++ [row] ∧
      row.items = [⟨1, "Tea", 2, 10⟩] ∧
      row.total_price = (row.items.map fun i => (i.qty : Rat) * i.price).sum :=
  (orderModal_total_invariant sampleDB createdDB 2 5 100 6 0
    [⟨1, "Tea", 2, 10⟩]).1 (by
      norm_num [orderModalCreate, is_verified, is_admin, calculateTotal,
        List.foldl, createdDB, sampleDB])


/-- C5: a successful `confirm_split_payment` appends a cash payment record
exactly when the cash amount is strictly positive and an online record
exactly when the online amount is strictly positive (never a zero-amount
record), and always sets the order's payment_method to split and its status
to paid. -/
theorem confirmSplitPayment_success_records
    (db db' : DB) (aid today now oid : Nat) (c onl : Rat)
    (h : confirm_split_payment db aid today now oid c onl = .ok db') :
    db'.payments = db.payments
      ++ (if 0 < c then [⟨oid, "cash", c, aid⟩] else [])
      ++ (if 0 < onl then [⟨oid, "online", onl, aid⟩] else []) ∧
    ∀ r ∈ db'.orders, r.id = oid →
      r.status = .paid ∧ r.payment_method = some "split" := by
  unfold confirm_split_payment at h
  simp only [] at h
  split at h
  · cases h
  split at h
  · cases h
  split at h
  · cases h
  split at h
  · cases h
  split at h
  · cases h
  split at h
  · cases h
  split at h
  · cases h
  injection h with h
  subst h
  refine ⟨rfl, ?_⟩
  intro r hr hid
  obtain ⟨a, _, _, hra⟩ := setOrder_mem_eq _ oid _ r hr hid
  subst hra
  exact ⟨rfl, rfl⟩

/-- The database produced by the concrete split settlement used in the C5
witness: 12 cash plus 8 online on the delivered order of `sampleDB`. -/
def splitPaidDB : DB :=
  { profiles := sampleDB.profiles
    orders := [⟨10, some 5, 2, [⟨1, "Tea", 2, 10⟩], .paid, 20, some "split", 0, 4⟩]
    payments := [⟨10, "cash", 12, 1⟩, ⟨10, "online", 8, 1⟩]
    cafe_tables := [⟨5, 1, "empty"⟩]
    daily_revenue := [⟨3, 12, 8⟩]
    audit_logs := [⟨"confirm_split_payment", 10, 1⟩] }

/-- Witness for C5 at a concrete split settlement. -/
theorem confirmSplitPayment_success_records_witness :
    splitPaidDB.payments = sampleDB.payments
      ++ (if (0:Rat) < 12 then [⟨10, "cash", 12, 1⟩] else [])
      ++ (if (0:Rat) < 8 then [⟨10, "online", 8, 1⟩] else []) ∧
    ∀ r ∈ splitPaidDB.orders, r.id = 10 →
      r.status = .paid ∧ r.payment_method = some "split" :=
  confirmSplitPayment_success_records sampleDB splitPaidDB 1 3 4 10 12 8 (by
    norm_num [confirm_split_payment, is_admin, findOrder, setOrder, freeTable,
      upsertRevenue, ratAbs, splitPaidDB, sampleDB]
    exact fun h => nomatch h)


/-- C6: on a delivered order with total T, called by an admin with
non-negative amounts of positive sum, `confirm_split_payment` fails with
AmountMismatch exactly when the absolute difference between cash + online
and T exceeds the fixed absolute tolerance 0.01. -/
theorem confirmSplitPayment_amountMismatch_iff
    (db : DB) (aid today now oid : Nat) (c onl : Rat)
    (hadm : is_admin db aid = true)
    (hc : 0 ≤ c) (honl : 0 ≤ onl) (hpos : 0 < c + onl)
    (o : OrderRow) (hfind : findOrder db oid = some o)
    (hst : o.status = .delivered) :
    confirm_split_payment db aid today now oid c onl = .error .amountMismatch
      ↔ (1 : Rat)/100 < |c + onl - o.total_price| := by
  rw [← ratAbs_eq_abs]
  by_cases hmis : (1 : Rat)/100 < ratAbs (c + onl - o.total_price)
  · simp [confirm_split_payment, hadm, hfind, hst, not_lt.mpr hc,
      not_lt.mpr honl, not_le.mpr hpos, hmis]
  · simp [confirm_split_payment, hadm, hfind, hst, not_lt.mpr hc,
      not_lt.mpr honl, not_le.mpr hpos, hmis]

/-- Witness for C6: paying 12 cash and 7.9 online against a total of 20
misses by 0.1 > 0.01, so the settlement fails with AmountMismatch. -/
theorem confirmSplitPayment_amountMismatch_iff_witness :
    (confirm_split_payment sampleDB 1 3 4 10 12 (79/10) = .error .amountMismatch
      ↔ (1 : Rat)/100 < |(12 : Rat) + 79/10 - 20|) ∧
    confirm_split_payment sampleDB 1 3 4 10 12 (79/10) = .error .amountMismatch :=
  have h := confirmSplitPayment_amountMismatch_iff sampleDB 1 3 4 10 12 (79/10)
    (by decide) (by norm_num) (by norm_num) (by norm_num)
    ⟨10, some 5, 2, [⟨1, "Tea", 2, 10⟩], .delivered, 20, none, 0, 0⟩
    (by decide) rfl
  ⟨h, h.mpr (by norm_num [abs])⟩


/-- C7: for a caller with a known profile, `edit_order` evaluates its
rejections in the fixed order NotFound, OrderFinalized (paid blocks
everyone, admins included), NotOwner (employee who is not the creator),
TooLateToEdit (employee on a delivered order), InvalidAmount (negative
total), the first failing check determining the error; an admin editing any
non-paid order with a non-negative total succeeds regardless of ownership
and delivered status. -/
theorem editOrder_error_precedence
    (db : DB) (uid now oid : Nat) (items : List OrderItem) (tot : Rat)
    (st : Option OStatus) (tid : Option Nat) (prof : Profile)
    (hprof : db.profiles.find? (fun p => p.id == uid) = some prof) :
    (findOrder db oid = none →
      edit_order db uid now oid items tot st tid = .error .notFound) ∧
    (∀ o, findOrder db oid = some o → o.status = .paid →
      edit_order db uid now oid items tot st tid = .error .orderFinalized) ∧
    (∀ o, findOrder db oid = some o → o.status ≠ .paid →
      prof.role = "employee" → o.employee_id ≠ uid →
      edit_order db uid now oid items tot st tid = .error .notOwner) ∧
    (∀ o, findOrder db oid = some o → o.status ≠ .paid →
      prof.role = "employee" → o.employee_id = uid → o.status = .delivered →
      edit_order db uid now oid items tot st tid = .error .tooLateToEdit) ∧
    (∀ o, findOrder db oid = some o → o.status ≠ .paid →
      (prof.role = "admin" ∨
        (prof.role = "employee" ∧ o.employee_id = uid ∧ o.status ≠ .delivered)) →
      tot < 0 →
      edit_order db uid now oid items tot st tid = .error .invalidAmount) ∧
    (∀ o, findOrder db oid = some o → o.status ≠ .paid →
      prof.role = "admin" → 0 ≤ tot →
      ∃ db', edit_order db uid now oid items tot st tid = .ok db') := by
  refine ⟨?_, ?_, ?_, ?_, ?_, ?_⟩
  · intro hnone
    simp [edit_order, hprof, hnone]
  · intro o hfind hpaid
    simp [edit_order, hprof, hfind, hpaid]
  · intro o hfind hpaid hrole hown
    simp [edit_order, hprof, hfind, hpaid, hrole, hown]
  · intro o hfind hpaid hrole hown hdel
    simp [edit_order, hprof, hfind, hpaid, hrole, hown, hdel]
  · intro o hfind hpaid hcond hneg
    rcases hcond with hadm | ⟨hrole, hown, hdel⟩
    · simp [edit_order, hprof, hfind, hpaid, hadm, hneg]
    · simp [edit_order, hprof, hfind, hpaid, hrole, hown, hdel, hneg]
  · intro o hfind hpaid hadm htot
    refine ⟨{ setOrder db oid (editUpdate items tot st tid now) with
      audit_logs := db.audit_logs ++ [⟨"edit_order", oid, uid⟩] }, ?_⟩
    simp [edit_order, hprof, hfind, hpaid, hadm, not_lt.mpr htot, setOrder]

/-- Witness for C7: in the sample database the admin (id 1) edits the
employee's delivered order with a non-negative total and succeeds. -/
theorem editOrder_error_precedence_witness :
    ∃ db', edit_order sampleDB 1 9 10 [⟨1, "Tea", 3, 10⟩] 30 none none = .ok db' :=
  ((editOrder_error_precedence sampleDB 1 9 10 [⟨1, "Tea", 3, 10⟩] 30 none none
    ⟨1, "admin", true⟩ (by decide)).2.2.2.2.2)
    ⟨10, some 5, 2, [⟨1, "Tea", 2, 10⟩], .delivered, 20, none, 0, 0⟩
    (by decide) (by decide) rfl (by norm_num)


/-- Concrete database for the C8 counterexample: a verified employee (id 2)
and an occupied table (id 5) with no outstanding order. -/
def occupiedDB : DB :=
  { profiles := [⟨2, "employee", true⟩]
    orders := []
    payments := []
    cafe_tables := [⟨5, 1, "occupied"⟩]
    daily_revenue := []
    audit_logs := [] }

/-- C8 counterexample: creating an order against an occupied table does not
fail — no TableOccupied error exists anywhere in the code.  The submit
handler inserts the order and re-marks the table occupied; the only
protection is that the UI drops occupied tables from the selection list. -/
theorem createOrder_occupied_succeeds_cex :
    occupiedDB.cafe_tables.map TableRow.status = ["occupied"] ∧
    orderModalCreate occupiedDB 2 (some 5) [⟨1, "Tea", 2, 10⟩] 100 6 =
      .ok { occupiedDB with
        orders := [⟨100, some 5, 2, [⟨1, "Tea", 2, 10⟩], .taken, 20, none, 6, 6⟩] } := by
  constructor
  · decide
  · norm_num [orderModalCreate, is_verified, is_admin, calculateTotal,
      List.foldl, occupiedDB]

/-- C8 amended: the create path never checks table occupancy: for any
verified caller and non-empty item list it succeeds whatever the selected
table's status, inserting the order (status taken) against that table; the
only guard in the code is that `availableTables` for a new order offers
exclusively empty tables. -/
theorem orderModalCreate_no_occupancy_check
    (db : DB) (uid t newId now : Nat) (items : List OrderItem)
    (tables : List TableRow)
    (hver : is_verified db uid = true)
    (hitems : items ≠ []) :
    (∀ r ∈ availableTables tables none, r.status = "empty") ∧
    ∃ db', orderModalCreate db uid (some t) items newId now = .ok db' ∧
      db'.orders = db.orders ++
        [⟨newId, some t, uid, items, .taken, calculateTotal items, none, now, now⟩] := by
  constructor
  · intro r hr
    simp only [availableTables, List.mem_filter] at hr
    simpa using hr.2
  · refine ⟨{ db with
        orders := db.orders ++
          [⟨newId, some t, uid, items, .taken, calculateTotal items, none, now, now⟩]
        cafe_tables := db.cafe_tables.map (fun r =>
          if r.id == t then { r with status := "occupied" } else r) }, ?_, rfl⟩
    simp [orderModalCreate, hver, hitems]

/-- Witness for the amended C8: concrete instance on the occupied-table
database. -/
theorem orderModalCreate_no_occupancy_check_witness :
    (∀ r ∈ availableTables occupiedDB.cafe_tables none, r.status = "empty") ∧
    ∃ db', orderModalCreate occupiedDB 2 (some 5) [⟨1, "Tea", 2, 10⟩] 100 6 = .ok db' ∧
      db'.orders = occupiedDB.orders ++
        [⟨100, some 5, 2, [⟨1, "Tea", 2, 10⟩], .taken,
          calculateTotal [⟨1, "Tea", 2, 10⟩], none, 6, 6⟩] :=
  orderModalCreate_no_occupancy_check occupiedDB 2 5 100 6 [⟨1, "Tea", 2, 10⟩]
    occupiedDB.cafe_tables (by decide) (by decide)


/-- Concrete database for the C9 counterexample: one admin, no orders. -/
def adminOnlyDB : DB :=
  { profiles := [⟨1, "admin", true⟩]
    orders := []
    payments := []
    cafe_tables := []
    daily_revenue := []
    audit_logs := [] }

/-- C9 counterexample: `confirm_payment` validates the payment method
before loading the order, so a call with a nonexistent order id and an
invalid method fails with the invalid-method error, not NotFound. -/
theorem confirmPayment_method_before_notFound_cex :
    findOrder adminOnlyDB 99 = none ∧
    confirm_payment adminOnlyDB 1 0 0 99 "card" = .error .invalidMethod ∧
    confirm_payment adminOnlyDB 1 0 0 99 "card" ≠ .error .notFound := by
  decide

/-- C9 amended: for an admin caller, `confirm_payment` checks the payment
method first: any method outside cash/online is rejected as invalid before
the order is even loaded; only for a valid method do the checks proceed in
the order NotFound, AlreadyPaid, NotYetDelivered. -/
theorem confirmPayment_check_order_amended
    (db : DB) (aid today now oid : Nat) (m : String)
    (hadm : is_admin db aid = true) :
    (m ≠ "cash" → m ≠ "online" →
      confirm_payment db aid today now oid m = .error .invalidMethod) ∧
    ((m = "cash" ∨ m = "online") → findOrder db oid = none →
      confirm_payment db aid today now oid m = .error .notFound) ∧
    (∀ o, (m = "cash" ∨ m = "online") → findOrder db oid = some o →
      o.status = .paid →
      confirm_payment db aid today now oid m = .error .alreadyPaid) ∧
    (∀ o, (m = "cash" ∨ m = "online") → findOrder db oid = some o →
      o.status ≠ .paid → o.status ≠ .delivered →
      confirm_payment db aid today now oid m = .error .notYetDelivered) := by
  refine ⟨?_, ?_, ?_, ?_⟩
  · intro h1 h2
    simp [confirm_payment, hadm, h1, h2]
  · intro hm hnone
    rcases hm with rfl | rfl <;> simp [confirm_payment, hadm, hnone]
  · intro o hm hfind hpaid
    rcases hm with rfl | rfl <;> simp [confirm_payment, hadm, hfind, hpaid]
  · intro o hm hfind hpaid hdel
    rcases hm with rfl | rfl <;> simp [confirm_payment, hadm, hfind, hpaid, hdel]

/-- Witness for the amended C9: concrete calls on `adminOnlyDB` and
`sampleDBPaid`. -/
theorem confirmPayment_check_order_amended_witness :
    confirm_payment adminOnlyDB 1 0 0 99 "upi" = .error .invalidMethod ∧
    confirm_payment adminOnlyDB 1 0 0 99 "cash" = .error .notFound :=
  ⟨(confirmPayment_check_order_amended adminOnlyDB 1 0 0 99 "upi"
      (by decide)).1 (by decide) (by decide),
   (confirmPayment_check_order_amended adminOnlyDB 1 0 0 99 "cash"
      (by decide)).2.1 (Or.inl rfl) (by decide)⟩


/-- The database produced by the concrete edit used in the C10 witness:
the admin (id 1) replaces the sample order's items with three Tea and total
30, supplying no status or table override. -/
def editedDB : DB :=
  { sampleDB with
    orders := [⟨10, some 5, 2, [⟨1, "Tea", 3, 10⟩], .delivered, 30, none, 0, 9⟩]
    audit_logs := [⟨"edit_order", 10, 1⟩] }

/-- C10: a successful `edit_order` touches nothing but the edited order's
items, total_price, the explicitly supplied status/table overrides, and
updated_at (plus the audit log): the order's employee_id, created_at and
payment_method are preserved, an absent status (resp. table) argument
leaves status (resp. table_id) unchanged, every other order row survives
untouched, and the profiles, payments, cafe_tables and daily_revenue tables
are unchanged. -/
theorem editOrder_frame
    (db db' : DB) (uid now oid : Nat) (items : List OrderItem) (tot : Rat)
    (st : Option OStatus) (tid : Option Nat)
    (h : edit_order db uid now oid items tot st tid = .ok db') :
    db'.profiles = db.profiles ∧ db'.payments = db.payments ∧
    db'.cafe_tables = db.cafe_tables ∧ db'.daily_revenue = db.daily_revenue ∧
    (∀ r ∈ db'.orders, r.id ≠ oid → r ∈ db.orders) ∧
    (∀ r ∈ db'.orders, r.id = oid →
      ∃ a ∈ db.orders, a.id = oid ∧
        r.employee_id = a.employee_id ∧ r.created_at = a.created_at ∧
        r.payment_method = a.payment_method ∧
        (st = none → r.status = a.status) ∧
        (tid = none → r.table_id = a.table_id)) := by
  unfold edit_order at h
  split at h
  · cases h
  split at h
  · cases h
  split at h
  · cases h
  split at h
  · cases h
  split at h
  · cases h
  split at h
  · cases h
  injection h with h
  subst h
  refine ⟨rfl, rfl, rfl, rfl, ?_, ?_⟩
  · intro r hr hid
    exact setOrder_mem_ne db oid (editUpdate items tot st tid now) (fun a => rfl) r hr hid
  · intro r hr hid
    obtain ⟨a, ha, haid, hra⟩ := setOrder_mem_eq db oid (editUpdate items tot st tid now) r hr hid
    subst hra
    refine ⟨a, ha, haid, rfl, rfl, rfl, ?_, ?_⟩
    · intro hst
      subst hst
      rfl
    · intro htid
      subst htid
      rfl

/-- Witness for C10: the admin's concrete edit of the sample order. -/
theorem editOrder_frame_witness :
    editedDB.profiles = sampleDB.profiles ∧
    editedDB.payments = sampleDB.payments ∧
    editedDB.cafe_tables = sampleDB.cafe_tables ∧
    editedDB.daily_revenue = sampleDB.daily_revenue ∧
    (∀ r ∈ editedDB.orders, r.id ≠ 10 → r ∈ sampleDB.orders) ∧
    (∀ r ∈ editedDB.orders, r.id = 10 →
      ∃ a ∈ sampleDB.orders, a.id = 10 ∧
        r.employee_id = a.employee_id ∧ r.created_at = a.created_at ∧
        r.payment_method = a.payment_method ∧
        ((none : Option OStatus) = none → r.status = a.status) ∧
        ((none : Option Nat) = none → r.table_id = a.table_id)) :=
  editOrder_frame sampleDB editedDB 1 9 10 [⟨1, "Tea", 3, 10⟩] 30 none none
    (by decide)


end Chiya

